import Mathlib

/-!
Shallow embedding of the signal routing and dispatch engine of the
`df_websockets` repository (files `df_websockets/tasks.py`,
`df_websockets/decorators.py`, `df_websockets/topics.py`,
`df_websockets/consumers.py`, `df_websockets/ws_settings.py`),
together with theorems settling the frozen claims about it.

Modelling conventions:
* Python dicts of keyword arguments become association lists
  `List (String × Value)`; in-place mutation (`kwargs[k] = v`) becomes
  explicit state passing, and the state is threaded exactly where the
  source shares one dict object.
* Python exceptions become the `PyErr` type; code that may raise returns
  `Except PyErr _`, and a `try/except` boundary in the source becomes a
  total function recording the caught exception.
* Values that the claims never inspect (uuids, log output, the channel
  layer, sha256 digests) are not modelled; effects on them are recorded
  as data (lists of submitted jobs / published messages) instead.
-/

namespace DfWebsockets

/-- A JSON-compatible Python value, as far as the claims need it. -/
inductive Value where
  | str (s : String)
  | int (n : Int)
  | bool (b : Bool)
  | pyNone
  deriving DecidableEq, Repr

/-- Python exception classes distinguished by the dispatch code:
`Connection.check` catches exactly `ValueError` and `TypeError`;
`_trigger_signal_async` raises `ValueError` for unsupported scheduling;
a missing module attribute raises `AttributeError`. -/
inductive PyErr where
  | valueError
  | typeError
  | keyError
  | attributeError
  | other (msg : String)
  deriving DecidableEq, Repr

/-- A Python kwargs dict: association list from argument name to value. -/
abbrev Kwargs := List (String × Value)

/-- `kwargs[k] = v` for a key already present: replace the binding in place
(`Connection.check` only assigns to keys `k` with `k in kwargs`). -/
def setKey (kw : Kwargs) (k : String) (v : Value) : Kwargs :=
  kw.map (fun p => if p.1 = k then (k, v) else p)

/-- The per-connection context (`df_websockets.window_info.WindowInfo`),
restricted to the facets the dispatch decisions read: the window key
(`WindowKeyMiddleware`), the authenticated user's primary key and the
authentication flag (`DjangoAuthMiddleware`).  A context object always
carries a window-key string; "no context" is `Option.none` at use sites,
mirroring the source's `window_info is None` tests. -/
structure WindowInfo where
  window_key : String
  user_pk : Option Int
  is_authenticated : Bool
  deriving DecidableEq, Repr

/-- `WindowInfo.to_dict`: serialize the modelled facets to a plain mapping
(the source delegates to the middleware pipeline). -/
def windowInfoToDict (w : WindowInfo) : Kwargs :=
  [("window_key", Value.str w.window_key),
   ("user_pk", match w.user_pk with | none => Value.pyNone | some n => Value.int n),
   ("is_authenticated", Value.bool w.is_authenticated)]

/-- `WindowInfo.from_dict`: `None` stays `None`, otherwise rebuild the
facets from the mapping (middleware pipeline `from_dict` methods). -/
def windowInfoFromDict : Option Kwargs → Option WindowInfo
  | none => none
  | some d =>
    some { window_key := match d.lookup "window_key" with
             | some (Value.str s) => s
             | _ => ""
           user_pk := match d.lookup "user_pk" with
             | some (Value.int n) => some n
             | _ => none
           is_authenticated := match d.lookup "is_authenticated" with
             | some (Value.bool b) => b
             | _ => false }

/-- A blank `WindowInfo()` as built by `WindowInfo.from_request(None)`:
every facet is populated with its empty default. -/
def blankWindowInfo : WindowInfo :=
  { window_key := "", user_pk := none, is_authenticated := false }

/-- The Python objects that `df_websockets.topics.serialize_topic`
distinguishes: the `BROADCAST`/`WINDOW`/`USER` constants, a class object,
a Django model instance (identified by app label, model name and primary
key), a `Session`, and the final fallback (any other object, identified
by its class name and `hash(obj)`). -/
inductive TopicObj where
  | broadcast
  | window
  | user
  | typeObj (name : String)
  | model (appLabel modelName : String) (pk : Option Nat)
  | session (key : String)
  | otherObj (className : String) (objHash : Int)
  deriving DecidableEq, Repr

/-- Python `"%s" % x` on an optional integer (`str(None) = "None"`). -/
def pyStrOptInt : Option Int → String
  | none => "None"
  | some n => toString n

/-- `df_websockets.topics.serialize_topic(window_info, obj)`.
The Django user model's meta is the default `auth.user`. -/
def serialize_topic (window_info : Option WindowInfo) (obj : TopicObj) :
    Option String :=
  match obj with
  | TopicObj.broadcast => some "-broadcast"
  | TopicObj.window =>
    match window_info with
    | none => none
    | some w => some ("-window." ++ w.window_key)
  | TopicObj.typeObj name => some ("-<" ++ name ++ ">")
  | TopicObj.model appLabel modelName pk =>
    -- "-%s.%s.%s" % (meta.app_label, meta.model_name, obj.pk or 0)
    some ("-" ++ appLabel ++ "." ++ modelName ++ "." ++ toString (pk.getD 0))
  | TopicObj.user =>
    match window_info with
    | none => none
    | some w => some ("-auth.user." ++ pyStrOptInt w.user_pk)
  | TopicObj.session key => some ("-session." ++ key)
  | TopicObj.otherObj className objHash =>
    some ("-" ++ className ++ "." ++ toString objHash)

/-- An argument coercer (a callable py3 annotation): applied to the raw
value, it either returns the coerced value or raises. -/
abbrev Coercer := Value → Except PyErr Value

/-- Result of `Connection.check(kwargs)`.  The `state` component is the
caller's kwargs dict after the call (the source mutates it in place);
on `ok` the mapping returned to the caller is that same dict. -/
inductive CheckResult where
  | raised (e : PyErr) (state : Kwargs)
  | rejected (state : Kwargs)
  | ok (state : Kwargs)
  deriving DecidableEq, Repr

/-- The kwargs dict carried by a `CheckResult`, in every outcome. -/
def CheckResult.state : CheckResult → Kwargs
  | CheckResult.raised _ st => st
  | CheckResult.rejected st => st
  | CheckResult.ok st => st

/-- The coercion loop of `Connection.check`: for each annotated argument
name present in `kwargs`, run the coercer and assign the result back into
the same dict; `ValueError` and `TypeError` are caught and turn into a
rejection (`return None`), any other exception propagates. -/
def applyCoercers : List (String × Coercer) → Kwargs → CheckResult
  | [], kw => CheckResult.ok kw
  | (k, f) :: rest, kw =>
    match kw.lookup k with
    | none => applyCoercers rest kw
    | some v =>
      match f v with
      | Except.ok v2 => applyCoercers rest (setKey kw k v2)
      | Except.error PyErr.valueError => CheckResult.rejected kw
      | Except.error PyErr.typeError => CheckResult.rejected kw
      | Except.error e => CheckResult.raised e kw

/-- A registered signal handler (`df_websockets.decorators.SignalConnection`),
with its argument contract resolved at registration time.
`get_queue` already folds in the static-string / callable distinction of
`Connection.get_queue`; `is_allowed_to` folds in its `connection` self
argument; `function` is the wrapped handler body, which may raise. -/
structure SignalConnection where
  path : String
  accept_kwargs : Bool
  required_arguments_names : List String
  optional_arguments_names : List String
  accepted_argument_names : List String
  argument_types : List (String × Coercer)
  is_allowed_to : Option WindowInfo → Kwargs → Bool
  get_queue : Option WindowInfo → Kwargs → String
  function : Option WindowInfo → Kwargs → Except PyErr Value

/-- `Connection.check(self, kwargs)`: apply the coercers (mutating the
dict in place), then verify every required name is present, then — unless
`accept_kwargs` — verify no unexpected name is present.  Returns the same
(mutated) dict on success, `None` on rejection. -/
def SignalConnection.check (c : SignalConnection) (kw : Kwargs) : CheckResult :=
  match applyCoercers c.argument_types kw with
  | CheckResult.raised e st => CheckResult.raised e st
  | CheckResult.rejected st => CheckResult.rejected st
  | CheckResult.ok st =>
    if c.required_arguments_names.all (fun k => (st.lookup k).isSome) then
      if c.accept_kwargs || st.all (fun p => c.accepted_argument_names.contains p.1) then
        CheckResult.ok st
      else CheckResult.rejected st
    else CheckResult.rejected st

/-- A declared parameter of a Python handler, as `inspect.signature`
reports it: its name, its kind, whether it has a default, and its
annotation (`none` = `param.empty`; a non-callable annotation is kept but
never stored as a coercer). -/
inductive Annot where
  | callableAnn (f : Coercer)
  | nonCallable

structure Param where
  name : String
  kind_var_positional : Bool
  kind_var_keyword : Bool
  hasDefault : Bool
  annot : Option Annot

/-- The accumulator of `Connection.signature_check`: the attributes the
constructor initialises before the loop, plus the local flag
`required_arg_is_present`. -/
structure SigAcc where
  accept_kwargs : Bool := false
  required_arguments_names : List String := []
  optional_arguments_names : List String := []
  accepted_argument_names : List String := []
  argument_types : List (String × Coercer) := []
  required_arg_is_present : Bool := false

/-- One iteration of the `for key, param in sig.parameters.items()` loop
of `Connection.signature_check` (with `required_function_arg =
"window_info"`). -/
def sigStep (acc : SigAcc) (p : Param) : Except PyErr SigAcc :=
  if p.name = "window_info" then
    Except.ok { acc with required_arg_is_present := true }
  else if p.kind_var_keyword then
    Except.ok { acc with accept_kwargs := true }
  else if p.kind_var_positional then
    -- "Cannot connect a signal using the *args syntax"
    Except.error PyErr.valueError
  else if !p.hasDefault then
    Except.ok { acc with
      required_arguments_names := acc.required_arguments_names ++ [p.name],
      argument_types := acc.argument_types ++
        (match p.annot with
         | some (Annot.callableAnn f) => [(p.name, f)]
         | _ => []),
      accepted_argument_names := acc.accepted_argument_names ++ [p.name] }
  else
    Except.ok { acc with
      optional_arguments_names := acc.optional_arguments_names ++ [p.name],
      accepted_argument_names := acc.accepted_argument_names ++ [p.name],
      argument_types := acc.argument_types ++
        (match p.annot with
         | some (Annot.callableAnn f) => [(p.name, f)]
         | _ => []) }

/-- `Connection.signature_check(fn)`: fold the loop over the declared
parameters, then fail with `ValueError` ("must takes window_info as first
argument") when no parameter named `window_info` was seen. -/
def signature_check (params : List Param) : Except PyErr SigAcc := do
  let acc ← params.foldlM sigStep {}
  if !acc.required_arg_is_present then Except.error PyErr.valueError
  else Except.ok acc

/-- The registry `REGISTERED_SIGNALS`: signal name to its list of
registered connections (multi-subscriber fan-out). -/
abbrev Registry := List (String × List SignalConnection)

/-- One message published to the channel layer by `_call_ws_signal`
(`group_send` of the serialized `{"signal", "opts", "signal_id"}` payload
to one topic). The uuid `signal_id` is not modelled. -/
structure Publish where
  topic : String
  signalName : String
  kwargs : Kwargs
  deriving DecidableEq, Repr

/-- The positional argument list `[signal_name, window_info_dict, kwargs,
from_client, serialized_client_topics, to_server, queue]` handed to the
worker backend and consumed by `process_task`. -/
structure DispatchJob where
  signalName : String
  windowInfoDict : Option Kwargs
  kwargs : Kwargs
  fromClient : Bool
  serializedClientTopics : List String
  toServer : Bool
  queue : String
  deriving Repr

/-- What running the handler loop of `process_task` produced:
the handler invocations that happened (handler path together with the
kwargs dict passed to it), the exception that escaped to the outer
`try/except` of `process_task` (if any), and the final state of the one
shared kwargs dict. -/
structure HandlerRunResult where
  invoked : List (String × Kwargs)
  caught : Option PyErr
  state : Kwargs
  deriving Repr

/-- The `for connection in REGISTERED_SIGNALS[signal_name]` loop of
`process_task`: skip a connection when its resolved queue differs from
the job's queue or (for client-originated jobs) when its authorization
predicate rejects; skip it when `check` rejects the arguments; otherwise
invoke it.  The kwargs dict is one shared object: `check` mutates it in
place and the next iteration sees the mutated state.  An exception —
from a coercer that `check` does not catch, or from the handler body —
aborts the loop (the single `try/except` of `process_task` wraps the
whole loop, not each iteration). -/
def runHandlers (wi : Option WindowInfo) (fromClient : Bool) (queue : String) :
    List SignalConnection → Kwargs → HandlerRunResult
  | [], st => ⟨[], none, st⟩
  | c :: rest, st =>
    if c.get_queue wi st != queue || (fromClient && !(c.is_allowed_to wi st)) then
      runHandlers wi fromClient queue rest st
    else
      match c.check st with
      | CheckResult.raised e st2 => ⟨[], some e, st2⟩
      | CheckResult.rejected st2 => runHandlers wi fromClient queue rest st2
      | CheckResult.ok st2 =>
        match c.function wi st2 with
        | Except.error e => ⟨[(c.path, st2)], some e, st2⟩
        | Except.ok _ =>
          let r := runHandlers wi fromClient queue rest st2
          ⟨(c.path, st2) :: r.invoked, r.caught, r.state⟩

/-- Everything `process_task` did: the publications it actually
performed (none — see `process_task` on the unawaited coroutine), then
the handler-loop effects.  `process_task` itself never raises: its whole
body is wrapped in `try/except Exception`, and a caught exception is
only logged (recorded here in `caught`). -/
structure ProcessOutcome where
  published : List Publish
  invoked : List (String × Kwargs)
  caught : Option PyErr
  state : Kwargs
  deriving Repr

/-- A configured WindowInfo middleware instance, as far as
`process_task` interrogates it: whether its class defines a
`before_process` method (`mdw.before_process(window_info)` is an
attribute access, raising `AttributeError` when the class has no such
attribute). -/
structure Middleware where
  className : String
  has_before_process : Bool
  deriving DecidableEq, Repr

/-- `df_websockets.window_info.middlewares`: the pipeline built from the
`WINDOW_INFO_MIDDLEWARES` setting, whose default (overridden by no
settings module in this repository) instantiates the four classes of
`ws_middleware.py`.  Neither they nor their base class
`WindowInfoMiddleware` define `before_process`. -/
def middlewares : List Middleware :=
  [⟨"WindowKeyMiddleware", false⟩, ⟨"DjangoAuthMiddleware", false⟩,
   ⟨"Djangoi18nMiddleware", false⟩, ⟨"BrowserMiddleware", false⟩]

/-- The `for mdw in middlewares: mdw.before_process(window_info)` loop of
`process_task`: it raises `AttributeError` at the first middleware whose
class does not define the hook (the hooks themselves, where defined,
carry no dispatch-relevant state). -/
def runBeforeProcess : List Middleware → Except PyErr Unit
  | [] => Except.ok ()
  | m :: rest =>
    if m.has_before_process then runBeforeProcess rest
    else Except.error PyErr.attributeError

/-- `df_websockets.tasks.process_task`.  Two traps in the source shape
every outcome:
* the republish of the job's client topics, `_call_ws_signal(...)`, is
  an `async def` invoked WITHOUT `await` from this synchronous function:
  the coroutine object is created and never executed, so no publish is
  ever performed when a job runs and `published` is always empty
  (contrast `_trigger_signal_async`, which awaits the same call on the
  immediate path);
* the `mdw.before_process(window_info)` hook loop runs before the
  handler loop, inside the single `try/except`; no middleware class in
  this repository defines `before_process`, so the loop raises
  `AttributeError`, which is caught and logged, and the handler loop is
  never reached.
The handler loop (`runHandlers`) is kept below the hook loop exactly as
in the source, for middleware pipelines whose classes would all define
the hook. -/
def process_task (registry : Registry) (job : DispatchJob) : ProcessOutcome :=
  let wi := windowInfoFromDict job.windowInfoDict
  match runBeforeProcess middlewares with
  | Except.error e => ⟨[], [], some e, job.kwargs⟩
  | Except.ok _ =>
    match job.toServer, registry.lookup job.signalName with
    | true, some conns =>
      let r := runHandlers wi job.fromClient job.queue conns job.kwargs
      ⟨[], r.invoked, r.caught, r.state⟩
    | _, _ => ⟨[], [], none, job.kwargs⟩

/-- The configured worker backend (`settings.WEBSOCKET_WORKERS`):
`"celery"`, `"channels"`, `"thread"` or `"process"`. -/
inductive WorkerMode where
  | celery
  | channels
  | thread
  | process
  deriving DecidableEq, Repr

/-- The `celery_options` dict built by `_trigger_signal_async`: a key is
present only when the corresponding argument is truthy. -/
structure CeleryOptions where
  expires : Option Nat
  eta : Option Nat
  countdown : Option Nat
  deriving DecidableEq, Repr

/-- Python truthiness of the optional delay arguments (`if expires:`). -/
def truthy : Option Nat → Bool
  | none => false
  | some n => n != 0

/-- A job handed to the worker backend by `call_task`, with the queue it
was submitted to and the scheduling options that were honoured. -/
structure SubmittedJob where
  queue : String
  job : DispatchJob
  options : CeleryOptions
  deriving Repr

/-- `df_websockets.tasks.call_task`: every backend submits the job to the
given queue; only the Celery branch forwards `celery_options`
(`apply_async(args=..., queue=..., **celery_options)`) — the channels and
pool branches ignore them. -/
def call_task (mode : WorkerMode) (queue : String) (job : DispatchJob)
    (opts : CeleryOptions) : SubmittedJob :=
  match mode with
  | WorkerMode.celery => ⟨queue, job, opts⟩
  | _ => ⟨queue, job, ⟨none, none, none⟩⟩

/-- `queues.add(q)` on the set of resolved queues. -/
def addIfAbsent (xs : List String) (q : String) : List String :=
  if xs.contains q then xs else xs ++ [q]

/-- Everything one `_trigger_signal_async` call did: synchronous
`process_task` runs (SYNC destinations), jobs submitted to the worker
backend, and immediate publications to client topics. -/
structure TriggerOutcome where
  syncRuns : List ProcessOutcome
  jobs : List SubmittedJob
  publishes : List Publish
  deriving Repr

/-- A member of the `to` destination list: the `SERVER` / `SYNC`
constants, or any other object, which is passed to the topic
serializer. -/
inductive Dest where
  | serverDest
  | syncDest
  | topicDest (obj : TopicObj)
  deriving DecidableEq, Repr

/-- `df_websockets.tasks._trigger_signal_async`.  Parameters `mode` and
`defaultQueue` are the process-wide settings `WEBSOCKET_WORKERS` and
`WEBSOCKET_DEFAULT_QUEUE`; `registry` is `REGISTERED_SIGNALS` (already
populated — `import_signals_and_functions` is idempotent and carries no
dispatch-relevant state).  `to = None` defaults to `[USER]`; the
singleton coercion `to is SERVER ⟹ to = [SERVER]` is subsumed by taking
a list.  Raising `ValueError` ("Unable to use eta, countdown or expires
in signals when not using Celery") happens before the queue set is
computed, so an error outcome carries no submitted job and no publish. -/
def triggerSignalAsync (mode : WorkerMode) (defaultQueue : String)
    (registry : Registry) (windowInfo : Option WindowInfo)
    (signalName : String) (toArg : Option (List Dest)) (kwargs : Kwargs)
    (countdown expires eta : Option Nat) (fromClient : Bool) :
    Except PyErr TriggerOutcome :=
  -- window_info = WindowInfo.from_request(window_info): never None below
  let wi : Option WindowInfo := some (windowInfo.getD blankWindowInfo)
  let dests := toArg.getD [Dest.topicDest TopicObj.user]
  let toServer0 := dests.contains Dest.serverDest
  let toSync := dests.contains Dest.syncDest
  let clientTopics := dests.filterMap (fun d =>
    match d with
    | Dest.topicDest o => serialize_topic wi o
    | _ => none)
  let opts : CeleryOptions :=
    ⟨if truthy expires then expires else none,
     if truthy eta then eta else none,
     if truthy countdown then countdown else none⟩
  let hasOpts := truthy expires || truthy eta || truthy countdown
  if hasOpts && mode != WorkerMode.celery then Except.error PyErr.valueError
  else
    let handlers := (registry.lookup signalName).getD []
    let queues0 := (handlers.map (fun c => c.get_queue wi kwargs)).dedup
    let backgroundTopics :=
      if hasOpts && !clientTopics.isEmpty then clientTopics else []
    let queues :=
      if hasOpts && !clientTopics.isEmpty then addIfAbsent queues0 defaultQueue
      else queues0
    let toServer :=
      if hasOpts && !clientTopics.isEmpty then true else toServer0
    let wiDict := wi.map windowInfoToDict
    let syncRuns :=
      if toSync then
        queues.map (fun q => process_task registry
          ⟨signalName, wiDict, kwargs, fromClient, [], true, q⟩)
      else []
    let jobs :=
      if toServer then
        queues.map (fun q => call_task mode q
          ⟨signalName, wiDict, kwargs, fromClient,
           (if q = defaultQueue then backgroundTopics else []), toServer, q⟩
          opts)
      else []
    let publishes :=
      if !clientTopics.isEmpty && !hasOpts then
        clientTopics.map (fun t => ⟨t, signalName, kwargs⟩)
      else []
    Except.ok ⟨syncRuns, jobs, publishes⟩

/-- `df_websockets.tasks.trigger_signal`: the public wrapper, always
`from_client=False`; `async_to_sync` makes the call synchronous, so an
error is raised to the caller. -/
def trigger_signal (mode : WorkerMode) (defaultQueue : String)
    (registry : Registry) (windowInfo : Option WindowInfo)
    (signalName : String) (toArg : Option (List Dest)) (kwargs : Kwargs)
    (countdown expires eta : Option Nat) : Except PyErr TriggerOutcome :=
  triggerSignalAsync mode defaultQueue registry windowInfo signalName toArg
    kwargs countdown expires eta false

/-- `df_websockets.tasks.trigger`: shortcut passing the signal arguments
directly; no delay options, `from_client=False`. -/
def trigger (mode : WorkerMode) (defaultQueue : String) (registry : Registry)
    (windowInfo : Option WindowInfo) (signalName : String)
    (toArg : Option (List Dest)) (kwargs : Kwargs) :
    Except PyErr TriggerOutcome :=
  triggerSignalAsync mode defaultQueue registry windowInfo signalName toArg
    kwargs none none none false

/-- The top-level names defined by the module `df_websockets/ws_settings.py`
(a plain Python module: accessing any other attribute raises
`AttributeError`).  Note: the old name `WEBSOCKET_REDIS_PREFIX` was
renamed; only `WEBSOCKET_CACHE_PREFIX` is assigned. -/
def wsSettingsModuleAttrs : List String :=
  ["warnings", "settings", "constants", "RemovedInDfWebsockets2Warning",
   "CELERY_APP", "compatibility_setting", "WEBSOCKET_DEFAULT_QUEUE",
   "WEBSOCKET_CACHE_EXPIRE", "WEBSOCKET_CACHE_PREFIX",
   "WEBSOCKET_CACHE_BACKEND", "WEBSOCKET_SIGNAL_DECODER",
   "WEBSOCKET_SIGNAL_ENCODER", "WEBSOCKET_TOPIC_SERIALIZER",
   "WEBSOCKET_WORKERS", "WEBSOCKET_POOL_SIZES", "WINDOW_INFO_MIDDLEWARES",
   "WEBSOCKET_URL", "ASGI_APPLICATION"]

/-- The top-level names defined by the module `df_websockets/tasks.py`
(imports, constants and functions).  No `get_websocket_redis_connection`
is defined. -/
def tasksModuleAttrs : List String :=
  ["json", "logging", "multiprocessing", "os", "uuid", "lru_cache",
   "import_module", "Dict", "List", "django", "async_to_sync", "caches",
   "celery_shared_task", "DEFAULT_CHANNEL_LAYER", "get_channel_layer",
   "apps", "ImproperlyConfigured", "import_string", "ws_settings",
   "WORKER_CELERY", "WORKER_CHANNEL", "WORKER_PROCESS", "WORKER_THREAD",
   "REGISTERED_SIGNALS", "DynamicQueueName", "SignalConnection",
   "valid_topic_name", "WindowInfo", "middlewares", "logger",
   "_PROCESS_POOLS", "Constant", "SERVER", "SESSION", "WINDOW", "USER",
   "BROADCAST", "SYNC", "_signal_encoder", "_topic_serializer",
   "set_websocket_topics", "trigger", "trigger_signal", "_trigger_signal",
   "_trigger_signal_async", "call_task", "process_task", "_call_ws_signal",
   "import_signals_and_functions", "get_expected_queues",
   "_server_signal_call"]

/-- Python attribute access on a module: `AttributeError` when the name is
not among the module's top-level definitions. -/
def moduleGetattr (attrs : List String) (name : String) : Except PyErr Unit :=
  if attrs.contains name then Except.ok () else Except.error PyErr.attributeError

/-- The external key-value store (Django cache) used by
`set_websocket_topics`: key to stored list of topic strings (TTL and the
JSON encoding of the value are not modelled). -/
abbrev CacheState := List (String × List String)

/-- `cache.set(key, value, ttl)`: replaces any prior value for the key. -/
def cacheSet (cache : CacheState) (key : String) (v : List String) :
    CacheState :=
  (key, v) :: cache.filter (fun p => p.1 ≠ key)

/-- `df_websockets.tasks.set_websocket_topics(request, *topics)`:
serialize every given topic (the `x is not SERVER` filter is the identity
here, since the `SERVER` constant is not a `TopicObj`), add the USER
topic when the user is authenticated, always add the WINDOW and BROADCAST
topics, and store the resulting set (dict-ordered, deduplicated) under
the key `WEBSOCKET_CACHE_PREFIX + window_key`, replacing any prior
value. -/
def set_websocket_topics (cachePfx : String) (wi : WindowInfo)
    (topics : List TopicObj) (cache : CacheState) : CacheState :=
  let extras : List TopicObj :=
    (if wi.is_authenticated then [TopicObj.user] else []) ++
      [TopicObj.window, TopicObj.broadcast]
  let topicStrings :=
    ((topics ++ extras).filterMap (serialize_topic (some wi))).dedup
  cacheSet cache (cachePfx ++ wi.window_key) topicStrings

/-- `df_websockets.consumers.get_websocket_topics(request)` as written in
the source: it evaluates `ws_settings.WEBSOCKET_REDIS_PREFIX` and then
`tasks.get_websocket_redis_connection()`, two attributes that do not
exist in the current source, so the function raises `AttributeError`
before reading anything; the continuation (an `lrange` read of a Redis
list, hashed through `valid_topic_name`) is unreachable and therefore
modelled as returning the empty list. -/
def get_websocket_topics (windowKey : String) (cache : CacheState) :
    Except PyErr (List String) := do
  -- redis_key = "%s%s" % (ws_settings.WEBSOCKET_REDIS_PREFIX, window_key)
  let _ ← moduleGetattr wsSettingsModuleAttrs "WEBSOCKET_REDIS_PREFIX"
  -- connection = tasks.get_websocket_redis_connection()
  let _ ← moduleGetattr tasksModuleAttrs "get_websocket_redis_connection"
  let _ := windowKey
  let _ := cache
  Except.ok []

/-! ### Concrete instances used by counterexamples and witnesses -/

/-- A stand-in for the `int` builtin as a coercer in the concrete
examples below: turns the decimal string "5" into the integer 5, rejects
other strings with `ValueError`, passes integers through and raises
`TypeError` on other shapes. -/
def intCoercer : Coercer := fun v =>
  match v with
  | Value.str s =>
    if s = "5" then Except.ok (Value.int 5) else Except.error PyErr.valueError
  | Value.int n => Except.ok (Value.int n)
  | _ => Except.error PyErr.typeError

/-- A coercer that always raises `ValueError` (like `Choice([])`). -/
def veCoercer : Coercer := fun _ => Except.error PyErr.valueError

/-- A coercer raising an exception that is neither `ValueError` nor
`TypeError` (for example `SerializedForm` evaluating `obj["name"]` on a
dict without that key raises `KeyError`). -/
def keCoercer : Coercer := fun _ => Except.error PyErr.keyError

/-- A handler on queue "celery" whose body raises. -/
def connBoom : SignalConnection :=
  { path := "demo.first", accept_kwargs := false,
    required_arguments_names := [], optional_arguments_names := [],
    accepted_argument_names := [], argument_types := [],
    is_allowed_to := fun _ _ => false,
    get_queue := fun _ _ => "celery",
    function := fun _ _ => Except.error (PyErr.other "boom") }

/-- A well-behaved handler on queue "celery". -/
def connPlain : SignalConnection :=
  { path := "demo.second", accept_kwargs := false,
    required_arguments_names := [], optional_arguments_names := [],
    accepted_argument_names := [], argument_types := [],
    is_allowed_to := fun _ _ => false,
    get_queue := fun _ _ => "celery",
    function := fun _ _ => Except.ok Value.pyNone }

/-- A handler on queue "celery" that everyone may call. -/
def connEveryone : SignalConnection :=
  { path := "demo.open", accept_kwargs := false,
    required_arguments_names := [], optional_arguments_names := [],
    accepted_argument_names := [], argument_types := [],
    is_allowed_to := fun _ _ => true,
    get_queue := fun _ _ => "celery",
    function := fun _ _ => Except.ok Value.pyNone }

/-- A handler on queue "q1" that everyone may call. -/
def connQ1 : SignalConnection :=
  { path := "demo.q1", accept_kwargs := false,
    required_arguments_names := [], optional_arguments_names := [],
    accepted_argument_names := [], argument_types := [],
    is_allowed_to := fun _ _ => true,
    get_queue := fun _ _ => "q1",
    function := fun _ _ => Except.ok Value.pyNone }

/-- A handler whose arguments are one coerced key "k" and a required key
"z" (used to exercise a rejection after a successful coercion). -/
def connCoerce : SignalConnection :=
  { path := "demo.coerce", accept_kwargs := true,
    required_arguments_names := ["z"], optional_arguments_names := ["k"],
    accepted_argument_names := ["k", "z"],
    argument_types := [("k", intCoercer)],
    is_allowed_to := fun _ _ => true,
    get_queue := fun _ _ => "celery",
    function := fun _ _ => Except.ok Value.pyNone }

/-- A handler with a coercer that raises `KeyError`. -/
def connBad : SignalConnection :=
  { path := "demo.bad", accept_kwargs := true,
    required_arguments_names := [], optional_arguments_names := ["k"],
    accepted_argument_names := ["k"],
    argument_types := [("k", keCoercer)],
    is_allowed_to := fun _ _ => true,
    get_queue := fun _ _ => "celery",
    function := fun _ _ => Except.ok Value.pyNone }

/-- A handler with one int-coerced key "k" followed by a key "m" whose
coercer raises `ValueError` (rejection after a partial coercion). -/
def connPartial : SignalConnection :=
  { path := "demo.partial", accept_kwargs := true,
    required_arguments_names := [], optional_arguments_names := ["k", "m"],
    accepted_argument_names := ["k", "m"],
    argument_types := [("k", intCoercer), ("m", veCoercer)],
    is_allowed_to := fun _ _ => true,
    get_queue := fun _ _ => "celery",
    function := fun _ _ => Except.ok Value.pyNone }

/-- A sample window context. -/
def wiSample : WindowInfo :=
  { window_key := "w1", user_pk := some 7, is_authenticated := true }

/-- A declared handler parameter `a` (positional-or-keyword, no default,
no annotation). -/
def paramA : Param :=
  { name := "a", kind_var_positional := false, kind_var_keyword := false,
    hasDefault := false, annot := none }

/-- The declared handler parameter `window_info`. -/
def paramWindowInfo : Param :=
  { name := "window_info", kind_var_positional := false,
    kind_var_keyword := false, hasDefault := false, annot := none }

/-! ### Helper lemmas -/

theorem lookup_cons (k k0 : String) (v0 : Value) (t : Kwargs) :
    List.lookup k ((k0, v0) :: t) = if k = k0 then some v0 else List.lookup k t := by
  by_cases h : k = k0
  · simp [List.lookup, h]
  · have hb : (k == k0) = false := beq_eq_false_iff_ne.mpr h
    simp [List.lookup, hb, h]

theorem setKey_cons (k : String) (v : Value) (k0 : String) (v0 : Value)
    (t : Kwargs) :
    setKey ((k0, v0) :: t) k v =
      (if k0 = k then (k, v) else (k0, v0)) :: setKey t k v := rfl

theorem setKey_keys (k : String) (v : Value) (kw : Kwargs) :
    (setKey kw k v).map Prod.fst = kw.map Prod.fst := by
  induction kw with
  | nil => rfl
  | cons p t ih =>
    obtain ⟨k0, v0⟩ := p
    rw [setKey_cons]
    by_cases h : k0 = k <;> simp [h, ih]

theorem setKey_lookup_self (k : String) (v : Value) (kw : Kwargs)
    (h : (kw.lookup k).isSome) : (setKey kw k v).lookup k = some v := by
  induction kw with
  | nil => simp [List.lookup] at h
  | cons p t ih =>
    obtain ⟨k0, v0⟩ := p
    rw [setKey_cons]
    by_cases hk : k0 = k
    · subst hk
      simp [lookup_cons]
    · have hne : ¬ k = k0 := fun hh => hk hh.symm
      rw [lookup_cons, if_neg hne] at h
      rw [if_neg hk, lookup_cons, if_neg hne]
      exact ih h

theorem setKey_lookup_ne (k kx : String) (v : Value) (kw : Kwargs)
    (h : kx ≠ k) : (setKey kw k v).lookup kx = kw.lookup kx := by
  induction kw with
  | nil => rfl
  | cons p t ih =>
    obtain ⟨k0, v0⟩ := p
    rw [setKey_cons]
    by_cases hk : k0 = k
    · subst hk
      rw [if_pos rfl, lookup_cons, lookup_cons, if_neg h, if_neg h]
      exact ih
    · rw [if_neg hk, lookup_cons, lookup_cons]
      by_cases hx : kx = k0
      · simp [hx]
      · rw [if_neg hx, if_neg hx]
        exact ih

theorem lookup_isSome_iff_mem_keys (k : String) (kw : Kwargs) :
    (kw.lookup k).isSome ↔ k ∈ kw.map Prod.fst := by
  induction kw with
  | nil => simp [List.lookup]
  | cons p t ih =>
    obtain ⟨k0, v0⟩ := p
    rw [lookup_cons]
    by_cases h : k = k0 <;> simp [h, ih]

theorem applyCoercers_cons (k : String) (f : Coercer)
    (rest : List (String × Coercer)) (kw : Kwargs) :
    applyCoercers ((k, f) :: rest) kw =
      match kw.lookup k with
      | none => applyCoercers rest kw
      | some v =>
        match f v with
        | Except.ok v2 => applyCoercers rest (setKey kw k v2)
        | Except.error PyErr.valueError => CheckResult.rejected kw
        | Except.error PyErr.typeError => CheckResult.rejected kw
        | Except.error e => CheckResult.raised e kw := rfl

theorem applyCoercers_state_keys (ats : List (String × Coercer)) (kw : Kwargs) :
    (applyCoercers ats kw).state.map Prod.fst = kw.map Prod.fst := by
  induction ats generalizing kw with
  | nil => rfl
  | cons p rest ih =>
    obtain ⟨k, f⟩ := p
    rw [applyCoercers_cons]
    cases hl : kw.lookup k with
    | none => exact ih kw
    | some v =>
      cases hf : f v with
      | ok v2 =>
        simp only [hf]
        rw [ih (setKey kw k v2), setKey_keys]
      | error e => cases e <;> simp only [hf] <;> rfl

theorem applyCoercers_append_ok (ats1 ats2 : List (String × Coercer))
    (kw st : Kwargs) (h : applyCoercers ats1 kw = CheckResult.ok st) :
    applyCoercers (ats1 ++ ats2) kw = applyCoercers ats2 st := by
  induction ats1 generalizing kw with
  | nil =>
    simp only [applyCoercers] at h
    cases h
    rfl
  | cons p rest ih =>
    obtain ⟨k, f⟩ := p
    rw [applyCoercers_cons] at h
    rw [List.cons_append, applyCoercers_cons]
    cases hl : kw.lookup k with
    | none =>
      simp only [hl] at h ⊢
      exact ih kw h
    | some v =>
      simp only [hl] at h ⊢
      cases hf : f v with
      | ok v2 =>
        simp only [hf] at h ⊢
        exact ih (setKey kw k v2) h
      | error e =>
        cases e <;> simp_all

theorem applyCoercers_nonmem (ats : List (String × Coercer)) (kw st : Kwargs)
    (k : String) (hk : k ∉ ats.map Prod.fst)
    (h : applyCoercers ats kw = CheckResult.ok st) :
    st.lookup k = kw.lookup k := by
  induction ats generalizing kw with
  | nil =>
    simp only [applyCoercers] at h
    cases h
    rfl
  | cons p rest ih =>
    obtain ⟨k0, f⟩ := p
    have hk0 : k ≠ k0 := by
      intro hh
      exact hk (by simp [hh])
    have hkr : k ∉ rest.map Prod.fst := fun hh => hk (by simp [hh])
    rw [applyCoercers_cons] at h
    cases hl : kw.lookup k0 with
    | none =>
      simp only [hl] at h
      exact ih kw hkr h
    | some v =>
      simp only [hl] at h
      cases hf : f v with
      | ok v2 =>
        simp only [hf] at h
        rw [ih (setKey kw k0 v2) hkr h]
        exact setKey_lookup_ne k0 k v2 kw hk0
      | error e =>
        cases e <;> simp only [hf] at h <;> exact CheckResult.noConfusion h

theorem applyCoercers_ok_lookup (ats : List (String × Coercer))
    (kw st : Kwargs) (k : String) (f : Coercer) (v : Value)
    (hnd : (ats.map Prod.fst).Nodup) (hmem : (k, f) ∈ ats)
    (hv : kw.lookup k = some v)
    (h : applyCoercers ats kw = CheckResult.ok st) :
    ∃ v2, f v = Except.ok v2 ∧ st.lookup k = some v2 := by
  induction ats generalizing kw with
  | nil => cases hmem
  | cons p rest ih =>
    obtain ⟨k0, f0⟩ := p
    simp only [List.map_cons, List.nodup_cons] at hnd
    rw [applyCoercers_cons] at h
    rcases List.mem_cons.mp hmem with hhead | htail
    · cases hhead
      simp only [hv] at h
      cases hf : f v with
      | ok v2 =>
        simp only [hf] at h
        refine ⟨v2, rfl, ?_⟩
        rw [applyCoercers_nonmem rest (setKey kw k v2) st k hnd.1 h]
        exact setKey_lookup_self k v2 kw (by simp [hv])
      | error e =>
        cases e <;> simp only [hf] at h <;> exact CheckResult.noConfusion h
    · have hkkeys : k ∈ rest.map Prod.fst :=
        List.mem_map.mpr ⟨(k, f), htail, rfl⟩
      have hk0 : k ≠ k0 := fun hh => hnd.1 (hh ▸ hkkeys)
      cases hl : kw.lookup k0 with
      | none =>
        simp only [hl] at h
        exact ih kw hnd.2 htail hv h
      | some w =>
        simp only [hl] at h
        cases hf0 : f0 w with
        | ok w2 =>
          simp only [hf0] at h
          refine ih (setKey kw k0 w2) hnd.2 htail ?_ h
          rw [setKey_lookup_ne k0 k w2 kw hk0]
          exact hv
        | error e =>
          cases e <;> simp only [hf0] at h <;> exact CheckResult.noConfusion h

theorem runHandlers_cons (wi : Option WindowInfo) (fc : Bool) (q : String)
    (c : SignalConnection) (rest : List SignalConnection) (st : Kwargs) :
    runHandlers wi fc q (c :: rest) st =
      if c.get_queue wi st != q || (fc && !(c.is_allowed_to wi st)) then
        runHandlers wi fc q rest st
      else
        match c.check st with
        | CheckResult.raised e st2 => ⟨[], some e, st2⟩
        | CheckResult.rejected st2 => runHandlers wi fc q rest st2
        | CheckResult.ok st2 =>
          match c.function wi st2 with
          | Except.error e => ⟨[(c.path, st2)], some e, st2⟩
          | Except.ok _ =>
            ⟨(c.path, st2) :: (runHandlers wi fc q rest st2).invoked,
             (runHandlers wi fc q rest st2).caught,
             (runHandlers wi fc q rest st2).state⟩ := rfl

theorem runHandlers_append (wi : Option WindowInfo) (fc : Bool) (q : String)
    (pre rest : List SignalConnection) (st : Kwargs)
    (h : (runHandlers wi fc q pre st).caught = none) :
    runHandlers wi fc q (pre ++ rest) st =
      ⟨(runHandlers wi fc q pre st).invoked ++
         (runHandlers wi fc q rest (runHandlers wi fc q pre st).state).invoked,
       (runHandlers wi fc q rest (runHandlers wi fc q pre st).state).caught,
       (runHandlers wi fc q rest (runHandlers wi fc q pre st).state).state⟩ := by
  induction pre generalizing st with
  | nil => simp [runHandlers]
  | cons c t ih =>
    simp only [List.cons_append, runHandlers_cons] at h ⊢
    by_cases hc : (c.get_queue wi st != q || (fc && !(c.is_allowed_to wi st))) = true
    · simp only [hc, if_true] at h ⊢
      exact ih st h
    · have hc2 : (c.get_queue wi st != q || (fc && !(c.is_allowed_to wi st))) = false :=
        Bool.eq_false_iff.mpr hc
      simp only [hc2, Bool.false_eq_true, if_false] at h ⊢
      cases hchk : c.check st with
      | raised e st2 =>
        simp only [hchk] at h
        exact Option.noConfusion h
      | rejected st2 =>
        simp only [hchk] at h ⊢
        exact ih st2 h
      | ok st2 =>
        simp only [hchk] at h ⊢
        cases hb : c.function wi st2 with
        | error e =>
          simp only [hb] at h
          exact Option.noConfusion h
        | ok u =>
          simp only [hb] at h ⊢
          have h2 : (runHandlers wi fc q t st2).caught = none := h
          rw [ih st2 h2]
          simp

theorem filter_map_eq_nil {α β : Type} (l : List α) (mk : α → β) (p : β → Bool)
    (h : ∀ x ∈ l, p (mk x) = false) : (l.map mk).filter p = [] := by
  induction l with
  | nil => rfl
  | cons x t ih =>
    simp only [List.map_cons, List.filter_cons, h x (List.mem_cons_self x t)]
    exact ih (fun y hy => h y (List.mem_cons_of_mem x hy))

theorem filter_map_eq_single {α β : Type} [DecidableEq α] (l : List α) (d : α)
    (mk : α → β) (p : β → Bool) (hnd : l.Nodup) (hmem : d ∈ l)
    (hp : ∀ x, p (mk x) = decide (x = d)) :
    (l.map mk).filter p = [mk d] := by
  induction l with
  | nil => cases hmem
  | cons x t ih =>
    rcases List.nodup_cons.mp hnd with ⟨hx, ht⟩
    by_cases hxd : x = d
    · subst hxd
      have hpx : p (mk x) = true := by simp [hp x]
      simp only [List.map_cons, List.filter_cons, hpx, if_true]
      have : (t.map mk).filter p = [] := by
        refine filter_map_eq_nil t mk p (fun y hy => ?_)
        have : ¬(y = x) := fun hh => hx (hh ▸ hy)
        simp [hp y, this]
      rw [this]
    · have hmt : d ∈ t := by
        rcases List.mem_cons.mp hmem with h1 | h1
        · exact absurd h1.symm hxd
        · exact h1
      have hpx : p (mk x) = false := by simp [hp x, hxd]
      simp only [List.map_cons, List.filter_cons, hpx]
      exact ih ht hmt

theorem mem_addIfAbsent (l : List String) (q : String) : q ∈ addIfAbsent l q := by
  unfold addIfAbsent
  by_cases h : l.contains q = true
  · rw [if_pos h]
    exact List.mem_of_elem_eq_true h
  · rw [if_neg h]
    simp

theorem addIfAbsent_nodup (l : List String) (q : String) (h : l.Nodup) :
    (addIfAbsent l q).Nodup := by
  unfold addIfAbsent
  by_cases hc : l.contains q = true
  · rw [if_pos hc]
    exact h
  · rw [if_neg hc]
    have : q ∉ l := fun hm => hc (List.elem_eq_true_of_mem hm)
    simp [List.nodup_append, h, this]

/-! ### Claim theorems -/

/-- C8: topic resolution is deterministic: `serialize_topic` resolves
BROADCAST to the same constant string regardless of context; it resolves
WINDOW to `None` exactly when there is no context, and otherwise to a
value that depends only on the context's connection (window) key; and an
application entity (a Django model instance) resolves to the same topic
string on every call, independent of the context. -/
theorem serialize_topic_deterministic :
    (∀ wi wi2 : Option WindowInfo,
      serialize_topic wi TopicObj.broadcast =
        serialize_topic wi2 TopicObj.broadcast)
  ∧ (∀ wi : Option WindowInfo,
      serialize_topic wi TopicObj.window = none ↔ wi = none)
  ∧ (∀ w w2 : WindowInfo, w.window_key = w2.window_key →
      serialize_topic (some w) TopicObj.window =
        serialize_topic (some w2) TopicObj.window)
  ∧ (∀ (wi wi2 : Option WindowInfo) (app mdl : String) (pk : Option Nat),
      serialize_topic wi (TopicObj.model app mdl pk) =
        serialize_topic wi2 (TopicObj.model app mdl pk)) := by
  refine ⟨fun wi wi2 => rfl, fun wi => ?_,
    fun w w2 h => by simp [serialize_topic, h],
    fun wi wi2 app mdl pk => rfl⟩
  cases wi <;> simp [serialize_topic]

/-- C8 witness: the WINDOW topic of two contexts differing only in their
user facet is the same, and no context resolves WINDOW to `None`. -/
theorem serialize_topic_deterministic_witness :
    serialize_topic (some wiSample) TopicObj.window =
      serialize_topic
        (some { window_key := "w1", user_pk := none,
                is_authenticated := false }) TopicObj.window ∧
    serialize_topic (none : Option WindowInfo) TopicObj.window = none :=
  ⟨serialize_topic_deterministic.2.2.1 wiSample
      { window_key := "w1", user_pk := none, is_authenticated := false } rfl,
   (serialize_topic_deterministic.2.1 none).mpr rfl⟩

/-- C9: evaluating `signature_check` on a handler declared as
`def f(a, window_info)` — whose FIRST parameter is not the reserved name
`window_info` — shows that registration succeeds anyway (classifying `a`
as a required argument), because the source only checks that a parameter
named `window_info` exists somewhere in the signature, contradicting its
own docstring and error message ("must takes window_info as first
argument") and the claim that such a registration fails. -/
theorem signature_check_accepts_non_first_context :
    signature_check [paramA, paramWindowInfo] =
      Except.ok { accept_kwargs := false, required_arguments_names := ["a"],
                  optional_arguments_names := [],
                  accepted_argument_names := ["a"], argument_types := [],
                  required_arg_is_present := true } := rfl

/-- C5: `get_websocket_topics` can never return the stored topic set: as
written it raises `AttributeError` on every call — it reads
`ws_settings.WEBSOCKET_REDIS_PREFIX` and then calls
`tasks.get_websocket_redis_connection`, neither of which exists in the
source — in particular immediately after `set_websocket_topics` stored a
topic set for the same window key (the scenario the repository's own
`TestGetWebsocketTopics` test exercises). -/
theorem get_websocket_topics_always_raises :
    ∀ (cachePfx key : String) (wi : WindowInfo) (topics : List TopicObj)
      (cache : CacheState),
      get_websocket_topics key
          (set_websocket_topics cachePfx wi topics cache) =
        Except.error PyErr.attributeError :=
  fun _ _ _ _ _ => rfl

/-- C1 counterexample: a signal with two registered handlers on the same
queue, the first of which would raise if invoked.  Running the job
invokes NO handler at all — in particular the sibling handler
`demo.second` is invoked zero times, contrary to the claim: before the
handler loop, `process_task` calls `mdw.before_process(window_info)` on
every configured middleware, none of which defines that attribute, and
the resulting `AttributeError` is caught by the single `try/except`
(nothing propagates). -/
theorem process_task_sibling_skipped_after_failure :
    process_task [("demo.signal", [connBoom, connPlain])]
        ⟨"demo.signal", none, [], false, [], true, "celery"⟩ =
      ⟨[], [], some PyErr.attributeError, []⟩ := rfl

/-- C1 amended: no exception ever propagates out of `process_task` — but
not through per-handler wrapping: with this repository's middlewares,
every `process_task` call raises `AttributeError` at the missing
`before_process` hook, inside the single `try/except` that wraps the
whole body (hook loop and handler loop alike); the exception is caught
and logged, the job republishes nothing (the `_call_ws_signal` coroutine
is never awaited), and no handler — failing or sibling — is ever
invoked. -/
theorem process_task_catches_hook_error_and_invokes_nothing :
    ∀ (registry : Registry) (job : DispatchJob),
      process_task registry job =
        ⟨[], [], some PyErr.attributeError, job.kwargs⟩ :=
  fun _ _ => rfl

/-- C6 counterexample: a coercer that raises `KeyError` (anything other
than `ValueError`/`TypeError`) makes `Connection.check` raise instead of
returning the `None` rejection: the exception escapes the validation
boundary, contrary to the claim that a raising coercer always yields a
rejection and that nothing ever raises past this boundary. -/
theorem check_raises_on_other_coercer_exception :
    connBad.check [("k", Value.str "x")] =
        CheckResult.raised PyErr.keyError [("k", Value.str "x")] ∧
      connBad.check [("k", Value.str "x")] ≠
        CheckResult.rejected [("k", Value.str "x")] :=
  ⟨rfl, fun h => nomatch h⟩

/-- C6 amended: provided no coercer raises an exception other than
`ValueError`/`TypeError` on the given kwargs (and the coercer map has
distinct keys, as a Python dict does), `Connection.check` never raises;
it returns `None` when a required argument name is absent, when an
unexpected name is present without `accept_kwargs`, or when a coercer
raises `ValueError`/`TypeError`; and on success it returns a mapping
with exactly the provided names, the annotated ones coerced and the rest
untouched.  A coercer raising any other exception propagates out of
`check` instead (see the counterexample). -/
theorem check_amended (c : SignalConnection) (kw : Kwargs)
    (hnodup : (c.argument_types.map Prod.fst).Nodup)
    (hno : ∀ e st, applyCoercers c.argument_types kw ≠ CheckResult.raised e st) :
    (∀ e st, c.check kw ≠ CheckResult.raised e st)
  ∧ (∀ st, c.check kw = CheckResult.ok st →
      st.map Prod.fst = kw.map Prod.fst
      ∧ (∀ k f v, (k, f) ∈ c.argument_types → kw.lookup k = some v →
          ∃ v2, f v = Except.ok v2 ∧ st.lookup k = some v2)
      ∧ (∀ k, k ∉ c.argument_types.map Prod.fst →
          st.lookup k = kw.lookup k))
  ∧ (∀ k, k ∈ c.required_arguments_names → kw.lookup k = none →
      ∃ st, c.check kw = CheckResult.rejected st)
  ∧ (c.accept_kwargs = false →
      ∀ p, p ∈ kw → p.1 ∉ c.accepted_argument_names →
      ∃ st, c.check kw = CheckResult.rejected st)
  ∧ (∀ st, applyCoercers c.argument_types kw = CheckResult.rejected st →
      c.check kw = CheckResult.rejected st) := by
  cases hac : applyCoercers c.argument_types kw with
  | raised e st => exact absurd hac (hno e st)
  | rejected st =>
    have hcheck : c.check kw = CheckResult.rejected st := by
      simp only [SignalConnection.check, hac]
    refine ⟨?_, ?_, ?_, ?_, ?_⟩
    · intro e st2 h
      rw [hcheck] at h
      exact nomatch h
    · intro st2 h
      rw [hcheck] at h
      exact nomatch h
    · intro k _ _
      exact ⟨st, hcheck⟩
    · intro _ p _ _
      exact ⟨st, hcheck⟩
    · intro st2 h2
      injection h2 with h2
      rw [← h2]
      exact hcheck
  | ok st =>
    have hkeys : st.map Prod.fst = kw.map Prod.fst := by
      have h := applyCoercers_state_keys c.argument_types kw
      rw [hac] at h
      exact h
    have hmiss : ∀ k, k ∈ c.required_arguments_names → kw.lookup k = none →
        c.required_arguments_names.all (fun k => (st.lookup k).isSome) = false := by
      intro k hkreq hkw
      refine Bool.eq_false_iff.mpr (fun hall => ?_)
      have h1 : (st.lookup k).isSome = true := List.all_eq_true.mp hall k hkreq
      have h2 : k ∈ kw.map Prod.fst :=
        hkeys ▸ (lookup_isSome_iff_mem_keys k st).mp h1
      have h3 : (kw.lookup k).isSome = true :=
        (lookup_isSome_iff_mem_keys k kw).mpr h2
      rw [hkw] at h3
      simp at h3
    have hunexp : c.accept_kwargs = false →
        ∀ p, p ∈ kw → p.1 ∉ c.accepted_argument_names →
        (c.accept_kwargs ||
          st.all (fun p => c.accepted_argument_names.contains p.1)) = false := by
      intro hak p hp hpn
      rw [hak, Bool.false_or]
      refine Bool.eq_false_iff.mpr (fun hall => ?_)
      have h1 : p.1 ∈ st.map Prod.fst := by
        rw [hkeys]
        exact List.mem_map.mpr ⟨p, hp, rfl⟩
      obtain ⟨q2, hq2, hq1⟩ := List.mem_map.mp h1
      have h2 := List.all_eq_true.mp hall q2 hq2
      rw [hq1] at h2
      exact hpn (List.mem_of_elem_eq_true h2)
    by_cases hreq : c.required_arguments_names.all
        (fun k => (st.lookup k).isSome) = true
    · by_cases hext : (c.accept_kwargs ||
          st.all (fun p => c.accepted_argument_names.contains p.1)) = true
      · have hcheck : c.check kw = CheckResult.ok st := by
          simp only [SignalConnection.check, hac, hreq, hext, if_true]
        refine ⟨?_, ?_, ?_, ?_, ?_⟩
        · intro e st2 h
          rw [hcheck] at h
          exact nomatch h
        · intro st2 h
          rw [hcheck] at h
          injection h with h
          subst h
          exact ⟨hkeys,
            fun k f v hm hv =>
              applyCoercers_ok_lookup c.argument_types kw st k f v hnodup hm hv hac,
            fun k hk => applyCoercers_nonmem c.argument_types kw st k hk hac⟩
        · intro k hkreq hkw
          rw [hmiss k hkreq hkw] at hreq
          exact nomatch hreq
        · intro hak p hp hpn
          rw [hunexp hak p hp hpn] at hext
          exact nomatch hext
        · intro st2 h2
          exact nomatch h2
      · have hext2 : (c.accept_kwargs ||
            st.all (fun p => c.accepted_argument_names.contains p.1)) = false :=
          Bool.eq_false_iff.mpr hext
        have hcheck : c.check kw = CheckResult.rejected st := by
          simp only [SignalConnection.check, hac, hreq, if_true, hext2,
            Bool.false_eq_true, if_false]
        refine ⟨?_, ?_, ?_, ?_, ?_⟩
        · intro e st2 h
          rw [hcheck] at h
          exact nomatch h
        · intro st2 h
          rw [hcheck] at h
          exact nomatch h
        · intro k _ _
          exact ⟨st, hcheck⟩
        · intro _ p _ _
          exact ⟨st, hcheck⟩
        · intro st2 h2
          exact nomatch h2
    · have hreq2 : c.required_arguments_names.all
          (fun k => (st.lookup k).isSome) = false :=
        Bool.eq_false_iff.mpr hreq
      have hcheck : c.check kw = CheckResult.rejected st := by
        simp only [SignalConnection.check, hac, hreq2,
          Bool.false_eq_true, if_false]
      refine ⟨?_, ?_, ?_, ?_, ?_⟩
      · intro e st2 h
        rw [hcheck] at h
        exact nomatch h
      · intro st2 h
        rw [hcheck] at h
        exact nomatch h
      · intro k _ _
        exact ⟨st, hcheck⟩
      · intro _ p _ _
        exact ⟨st, hcheck⟩
      · intro st2 h2
        exact nomatch h2

/-- C6 amended witness: a handler whose coercers only ever succeed or
fail with `ValueError` never lets an exception escape `check`. -/
theorem check_amended_witness :
    connCoerce.check [("k", Value.str "5"), ("z", Value.int 1)] ≠
      CheckResult.raised PyErr.keyError
        [("k", Value.str "5"), ("z", Value.int 1)] :=
  (check_amended connCoerce [("k", Value.str "5"), ("z", Value.int 1)]
      (by simp [connCoerce])
      (fun e st h => nomatch h)).1
    PyErr.keyError [("k", Value.str "5"), ("z", Value.int 1)]

/-- C7 counterexample: a client-originated job for a signal whose single
handler is authorized for everyone, on the matching queue, with arguments
that check out — yet the handler is invoked zero times, refuting the
claim that predicate-true handlers are still invoked: `process_task`
raises `AttributeError` at the missing `before_process` middleware hook
before its handler loop, and catches it. -/
theorem process_task_from_client_no_invocation :
    process_task [("demo.signal", [connEveryone])]
        ⟨"demo.signal", none, [], true, [], true, "celery"⟩ =
      ⟨[], [], some PyErr.attributeError, []⟩ := rfl

/-- C7 amended: for a job with `from_client=True`, no exception is
surfaced to the job runner and an unauthorized handler is invoked zero
times — but so is every other handler: with this repository's
middlewares `process_task` fails at the missing `before_process` hook
(caught, logged) before its handler loop.  In the handler loop itself
(as the source writes it below the hook loop), an unauthorized handler
is skipped by a bare `continue` — silently, raising nothing — and the
outcome is exactly as if that handler were absent, so authorized
siblings are unaffected by it. -/
theorem process_task_from_client_silent (registry : Registry)
    (job : DispatchJob) (hfc : job.fromClient = true) :
    process_task registry job =
      ⟨[], [], some PyErr.attributeError, job.kwargs⟩
  ∧ (∀ (wi : Option WindowInfo) (q : String)
      (pre post : List SignalConnection) (cU : SignalConnection)
      (rpre : HandlerRunResult) (st : Kwargs),
      runHandlers wi true q pre st = rpre →
      rpre.caught = none →
      cU.is_allowed_to wi rpre.state = false →
      runHandlers wi true q (pre ++ cU :: post) st =
        runHandlers wi true q (pre ++ post) st) := by
  refine ⟨rfl, ?_⟩
  intro wi q pre post cU rpre st hrpre hpre hunauth
  have hpre2 : (runHandlers wi true q pre st).caught = none := by
    rw [hrpre]; exact hpre
  rw [runHandlers_append wi true q pre (cU :: post) st hpre2,
    runHandlers_append wi true q pre post st hpre2,
    hrpre, runHandlers_cons]
  have hcond : (cU.get_queue wi rpre.state != q
      || (true && !(cU.is_allowed_to wi rpre.state))) = true := by
    rw [hunauth]
    simp
  simp only [hcond, if_true]

/-- C7 amended witness: a client job invokes nothing, and in the loop in
isolation a `server_side` handler before an `everyone` handler changes
nothing. -/
theorem process_task_from_client_silent_witness :
    process_task [("demo.signal", [connPlain, connEveryone])]
        ⟨"demo.signal", none, [], true, [], true, "celery"⟩ =
      ⟨[], [], some PyErr.attributeError, []⟩
  ∧ runHandlers none true "celery" [connPlain, connEveryone] [] =
      runHandlers none true "celery" [connEveryone] [] := by
  have h := process_task_from_client_silent
    [("demo.signal", [connPlain, connEveryone])]
    ⟨"demo.signal", none, [], true, [], true, "celery"⟩ rfl
  exact ⟨h.1, h.2 none "celery" [] [connEveryone] connPlain
    ⟨[], none, []⟩ [] rfl rfl rfl⟩

/-- C10: `Connection.check` mutates the caller's kwargs dict in place:
(i) when the coercer of a later annotated argument fails with
`ValueError` after an earlier coercer already succeeded, `check` returns
the `None` rejection while the caller's dict is left in the partially
coerced state; and (ii) `process_task` threads that one shared dict
through the handler loop: after a handler's `check` rejects, the
remaining handlers are evaluated against the dict state that the
rejected `check` produced, not against the original kwargs. -/
theorem check_mutates_shared_kwargs (c : SignalConnection)
    (ats1 ats2 : List (String × Coercer)) (k : String) (f : Coercer)
    (kw st1 : Kwargs) (v : Value)
    (hats : c.argument_types = ats1 ++ (k, f) :: ats2)
    (h1 : applyCoercers ats1 kw = CheckResult.ok st1)
    (hv : st1.lookup k = some v)
    (hf : f v = Except.error PyErr.valueError) :
    c.check kw = CheckResult.rejected st1
  ∧ (∀ (wi : Option WindowInfo) (fc : Bool) (q : String)
      (c1 : SignalConnection) (rest : List SignalConnection)
      (st st2 : Kwargs),
      (c1.get_queue wi st != q || (fc && !(c1.is_allowed_to wi st))) = false →
      c1.check st = CheckResult.rejected st2 →
      runHandlers wi fc q (c1 :: rest) st = runHandlers wi fc q rest st2) := by
  constructor
  · have hac : applyCoercers c.argument_types kw = CheckResult.rejected st1 := by
      rw [hats, applyCoercers_append_ok ats1 ((k, f) :: ats2) kw st1 h1,
        applyCoercers_cons]
      simp only [hv, hf]
    simp only [SignalConnection.check, hac]
  · intro wi fc q c1 rest st st2 hcond hchk
    rw [runHandlers_cons]
    simp only [hcond, Bool.false_eq_true, if_false, hchk]

/-- C10 witness: with kwargs `{"k": "5", "m": "x"}` and coercers
`{"k": int, "m": always-ValueError}`, `check` rejects but leaves the
caller's dict with `"k"` already coerced to the integer 5, and the next
handler in the loop sees that mutated dict. -/
theorem check_mutates_shared_kwargs_witness :
    connPartial.check [("k", Value.str "5"), ("m", Value.str "x")] =
      CheckResult.rejected [("k", Value.int 5), ("m", Value.str "x")]
  ∧ runHandlers none false "celery" [connPartial, connEveryone]
      [("k", Value.str "5"), ("m", Value.str "x")] =
    runHandlers none false "celery" [connEveryone]
      [("k", Value.int 5), ("m", Value.str "x")] := by
  have h := check_mutates_shared_kwargs connPartial [("k", intCoercer)] []
    "m" veCoercer [("k", Value.str "5"), ("m", Value.str "x")]
    [("k", Value.int 5), ("m", Value.str "x")] (Value.str "x")
    rfl rfl rfl rfl
  exact ⟨h.1, h.2 none false "celery" connPartial [connEveryone]
    [("k", Value.str "5"), ("m", Value.str "x")]
    [("k", Value.int 5), ("m", Value.str "x")] rfl h.1⟩

/-- C2: for a signal with exactly one registered handler whose queue
resolves to `q`, `trigger` with `to=[SERVER, entity]` and no
countdown/expires/eta submits exactly one background job — to queue `q`,
with an empty client-topics list — runs nothing synchronously, and
performs exactly one immediate publish, to the topic the entity resolves
to. -/
theorem trigger_single_handler_fanout (mode : WorkerMode)
    (defaultQueue : String) (registry : Registry) (wi : WindowInfo)
    (signalName : String) (c : SignalConnection) (entity : TopicObj)
    (kw : Kwargs) (q t : String)
    (hreg : registry.lookup signalName = some [c])
    (hq : c.get_queue (some wi) kw = q)
    (ht : serialize_topic (some wi) entity = some t) :
    trigger mode defaultQueue registry (some wi) signalName
        (some [Dest.serverDest, Dest.topicDest entity]) kw =
      Except.ok
        { syncRuns := [],
          jobs := [⟨q, ⟨signalName, some (windowInfoToDict wi), kw, false, [],
                      true, q⟩, ⟨none, none, none⟩⟩],
          publishes := [⟨t, signalName, kw⟩] } := by
  cases mode <;>
    simp [trigger, triggerSignalAsync, call_task, hreg, hq, ht, truthy,
      List.dedup_cons_of_not_mem]

/-- C2 witness: triggering a one-handler signal on queue `q1` with
`to=[SERVER, session]` yields one job on `q1` with no client topics and
one publish to the session topic. -/
theorem trigger_single_handler_fanout_witness :
    trigger WorkerMode.thread "celery" [("demo.q1", [connQ1])]
        (some wiSample) "demo.q1"
        (some [Dest.serverDest, Dest.topicDest (TopicObj.session "s")]) [] =
      Except.ok
        { syncRuns := [],
          jobs := [⟨"q1", ⟨"demo.q1", some (windowInfoToDict wiSample), [],
                      false, [], true, "q1"⟩, ⟨none, none, none⟩⟩],
          publishes := [⟨"-session.s", "demo.q1", []⟩] } :=
  trigger_single_handler_fanout WorkerMode.thread "celery"
    [("demo.q1", [connQ1])] wiSample "demo.q1" connQ1 (TopicObj.session "s")
    [] "q1" "-session.s" rfl rfl rfl

/-- C3 counterexample: running the deferred job that carries a client
topic republishes nothing — `(process_task ...).published = []`, not the
job's topic — refuting the claim's "so that job republishes the topics
when it runs": `process_task` calls the async `_call_ws_signal` without
`await`, so the publish coroutine is created and never executed (and the
missing `before_process` hook aborts the rest of the call). -/
theorem process_task_does_not_republish_topics :
    process_task [("demo.q1", [connQ1])]
        ⟨"demo.q1", some (windowInfoToDict wiSample), [], false,
         ["-session.s"], true, "celery"⟩ =
      ⟨[], [], some PyErr.attributeError, []⟩ := rfl

/-- C3 amended: on the Celery backend, triggering with
`to=[SERVER, entity]` and a truthy `eta` performs zero immediate
publishes; exactly one of the deferred jobs carries the entity's
resolved topic in its client-topics list (the job on the default queue,
which also carries the eta option); every submitted job has
`to_server=true` — but when that topic-carrying job later runs,
`process_task` does NOT republish the topic: the republish call is an
unawaited coroutine, so the deferred client notification is lost. -/
theorem trigger_eta_defers_client_topics (defaultQueue : String)
    (registry : Registry) (wi : WindowInfo) (signalName : String)
    (entity : TopicObj) (kw : Kwargs) (t : String) (n : Nat) (hn : n ≠ 0)
    (ht : serialize_topic (some wi) entity = some t) :
    ∃ out,
      trigger_signal WorkerMode.celery defaultQueue registry (some wi)
          signalName (some [Dest.serverDest, Dest.topicDest entity]) kw
          none none (some n) = Except.ok out
      ∧ out.publishes = []
      ∧ out.jobs.filter (fun j => j.job.serializedClientTopics.contains t) =
          [⟨defaultQueue,
            ⟨signalName, some (windowInfoToDict wi), kw, false, [t], true,
             defaultQueue⟩, ⟨none, some n, none⟩⟩]
      ∧ (∀ j ∈ out.jobs, j.job.toServer = true)
      ∧ (process_task registry
          ⟨signalName, some (windowInfoToDict wi), kw, false, [t], true,
           defaultQueue⟩).published = [] := by
  have hopts : truthy (some n) = true := by simp [truthy, hn]
  refine ⟨⟨[], (addIfAbsent
      ((((registry.lookup signalName).getD []).map
        (fun c => c.get_queue (some wi) kw)).dedup) defaultQueue).map
      (fun q =>
        ⟨q, ⟨signalName, some (windowInfoToDict wi), kw, false,
             (if q = defaultQueue then [t] else []), true, q⟩,
         ⟨none, some n, none⟩⟩), []⟩, ?_, rfl, ?_, ?_, ?_⟩
  · simp [trigger_signal, triggerSignalAsync, call_task, ht, hopts, truthy,
      hn]
  · rw [filter_map_eq_single _ defaultQueue _ _
      (addIfAbsent_nodup _ _ (List.nodup_dedup _)) (mem_addIfAbsent _ _)
      (fun x => by by_cases hx : x = defaultQueue <;> simp [hx])]
    simp
  · intro j hj
    obtain ⟨x, hx, rfl⟩ := List.mem_map.mp hj
    rfl
  · rfl

/-- C3 witness: the deferred fan-out succeeds on a concrete one-handler
registry with `eta=5`. -/
theorem trigger_eta_defers_client_topics_witness :
    (trigger_signal WorkerMode.celery "celery" [("demo.q1", [connQ1])]
        (some wiSample) "demo.q1"
        (some [Dest.serverDest, Dest.topicDest (TopicObj.session "s")]) []
        none none (some 5)).isOk = true := by
  obtain ⟨out, heq, -, -, -, -⟩ := trigger_eta_defers_client_topics "celery"
    [("demo.q1", [connQ1])] wiSample "demo.q1" (TopicObj.session "s") []
    "-session.s" 5 (by decide) rfl
  rw [heq]
  rfl

/-- C4: supplying a truthy countdown, expires or eta while the configured
worker backend is not Celery makes `trigger_signal` raise the
unsupported-scheduling `ValueError` synchronously — the error return
carries no submitted job and no publish, since the raise happens before
the queue set is computed; with the Celery backend, that error is never
raised. -/
theorem trigger_signal_scheduling_guard (mode : WorkerMode)
    (defaultQueue : String) (registry : Registry)
    (windowInfo : Option WindowInfo) (signalName : String)
    (toArg : Option (List Dest)) (kw : Kwargs)
    (countdown expires eta : Option Nat) :
    ((truthy expires || truthy eta || truthy countdown) = true →
      mode ≠ WorkerMode.celery →
      trigger_signal mode defaultQueue registry windowInfo signalName toArg
        kw countdown expires eta = Except.error PyErr.valueError)
  ∧ (mode = WorkerMode.celery →
      trigger_signal mode defaultQueue registry windowInfo signalName
        toArg kw countdown expires eta ≠ Except.error PyErr.valueError) := by
  constructor
  · intro hopts hmode
    have hm : (mode != WorkerMode.celery) = true := by
      cases mode <;> simp_all
    simp [trigger_signal, triggerSignalAsync, hopts, hm]
  · intro hmode
    subst hmode
    have hc : ((truthy expires || truthy eta || truthy countdown) &&
        (WorkerMode.celery != WorkerMode.celery)) = false := by simp
    simp only [trigger_signal, triggerSignalAsync, hc, Bool.false_eq_true,
      if_false]
    exact fun h => nomatch h

/-- C4 witness: `countdown=3` on the thread backend raises the
scheduling `ValueError`; the same call on the Celery backend does not. -/
theorem trigger_signal_scheduling_guard_witness :
    trigger_signal WorkerMode.thread "celery" [] none "demo.signal"
        (some [Dest.serverDest]) [] (some 3) none none =
      Except.error PyErr.valueError
  ∧ trigger_signal WorkerMode.celery "celery" [] none "demo.signal"
        (some [Dest.serverDest]) [] (some 3) none none ≠
      Except.error PyErr.valueError :=
  ⟨(trigger_signal_scheduling_guard WorkerMode.thread "celery" [] none
      "demo.signal" (some [Dest.serverDest]) [] (some 3) none none).1
      rfl (fun h => nomatch h),
   (trigger_signal_scheduling_guard WorkerMode.celery "celery" [] none
      "demo.signal" (some [Dest.serverDest]) [] (some 3) none none).2 rfl⟩

end DfWebsockets
